import Mathlib

/-!
Verification of the exponential-distribution ziggurat sampler of the
`gozelle/rand` repository (file `math_exp.go`), together with models of
the byte-stream reader, bounded sampler and shuffle described by the
repository specification.

Machine `uint64` values are embedded as `Nat` reduced modulo `2 ^ 64`
where a raw engine word is drawn.  The `float64` constants of the
ziggurat tables are embedded as the exact rational values of the decimal
literals in the source (each literal is recorded by its digit string and
its decimal exponent, so literal `d.ddd...e-k` denotes
`mkRat ddddd (10 ^ m)`), and `float64` arithmetic inside the sampler is
embedded as exact real arithmetic; `math.Exp` and `math.Log` become
`Real.exp` and `Real.log`.  The raw `Uint64` word stream and the
`Float64` uniform stream consumed by the sampler are abstract streams
(`Nat → Nat` and `Nat → ℝ`), since the core engine and the float
constructor are outside the verified source file.
-/

namespace GozelleRand

/-! ## The ziggurat tables of `math_exp.go` -/

/-- The `ke` table of `math_exp.go` (256 `uint64` thresholds). -/
def keList : List Nat := [
  0x1c5214272497c5, 0x0, 0x137d5bd79c3125, 0x186ef58e3f3bf1,
  0x1a9bb7320eb09b, 0x1bd127f7194472, 0x1c951d0f886513, 0x1d1bfe2d5c3970,
  0x1d7e5bd56b18b2, 0x1dc934dd172c6e, 0x1e0409dfac9dc8, 0x1e337b71d47835,
  0x1e5a8b177cb7a0, 0x1e7b42096f046d, 0x1e970daf08ae3c, 0x1eaef5b14ef09e,
  0x1ec3bd07b46557, 0x1ed5f6f08799cd, 0x1ee614ae6e5689, 0x1ef46eca361ccf,
  0x1f014b76ddd4a3, 0x1f0ce313a796b6, 0x1f176369f1f779, 0x1f20f20c452571,
  0x1f29ae1951a875, 0x1f31b18fb95533, 0x1f39125157c107, 0x1f3fe2eb6e694c,
  0x1f463332d788fb, 0x1f4c10bf1d3a11, 0x1f51874c5c3323, 0x1f56a109c3ecc1,
  0x1f5b66d9099995, 0x1f5fe08210d08c, 0x1f6414dd445772, 0x1f6809f685967a,
  0x1f6bc52a2b02e7, 0x1f6f4b3d32e4f4, 0x1f72a07190f139, 0x1f75c8974d09d9,
  0x1f78c71b045cc0, 0x1f7b9f12413ff5, 0x1f7e5346079f8a, 0x1f80e63be21138,
  0x1f835a3dad9163, 0x1f85b16056b913, 0x1f87ed89b24263, 0x1f8a10759374fc,
  0x1f8c1bba3d39ad, 0x1f8e10cc45d04b, 0x1f8ff102013e16, 0x1f91bd968358e2,
  0x1f9377ac47afd7, 0x1f95204f8b64db, 0x1f96b878633894, 0x1f98410c968891,
  0x1f99bae146ba83, 0x1f9b26bc697f01, 0x1f9c85561b717a, 0x1f9dd759cfd804,
  0x1f9f1d6761a1cf, 0x1fa058140936c0, 0x1fa187eb3a333a, 0x1fa2ad6f6bc4fc,
  0x1fa3c91ace0683, 0x1fa4db5fee6aa3, 0x1fa5e4aa4d0980, 0x1fa6e55ee46783,
  0x1fa7dddca51ec5, 0x1fa8ce7ce6a876, 0x1fa9b793ce5fef, 0x1faa9970adb858,
  0x1fab745e588233, 0x1fac48a3740585, 0x1fad1682bf9feb, 0x1fadde3b5782c0,
  0x1faea008f21d6c, 0x1faf5c2418b07f, 0x1fb012c25b7a15, 0x1fb0c41681dff3,
  0x1fb17050b6f1fa, 0x1fb2179eb2963b, 0x1fb2ba2bdfa84b, 0x1fb358217f4e19,
  0x1fb3f1a6c9be0d, 0x1fb486e10cacd7, 0x1fb517f3c793fc, 0x1fb5a500c5fdaa,
  0x1fb62e2837fe5a, 0x1fb6b388c9010b, 0x1fb7353fb50798, 0x1fb7b368dc7da9,
  0x1fb82e1ed6ba0a, 0x1fb8a57b0347f6, 0x1fb919959a0f74, 0x1fb98a85ba7204,
  0x1fb9f861796f26, 0x1fba633deee287, 0x1fbacb2f41ec17, 0x1fbb3048b49146,
  0x1fbb929caea4e4, 0x1fbbf23cc8029d, 0x1fbc4f39d22996, 0x1fbca9a3e140d5,
  0x1fbd018a548fa0, 0x1fbd56fbde729c, 0x1fbdaa068bd66c, 0x1fbdfab7cb3f42,
  0x1fbe491c7364de, 0x1fbe9540c96960, 0x1fbedf3086b129, 0x1fbf26f6de6176,
  0x1fbf6c9e828ae4, 0x1fbfb031a904c6, 0x1fbff1ba0ffdb1, 0x1fc03141024589,
  0x1fc06ecf5b54b3, 0x1fc0aa6d8b1428, 0x1fc0e42399698b, 0x1fc11bf9298a65,
  0x1fc151f57d1944, 0x1fc1861f770f4b, 0x1fc1b87d9e74b4, 0x1fc1e91620ea43,
  0x1fc217eed505de, 0x1fc2450d3c8400, 0x1fc27076864fc2, 0x1fc29a2f906310,
  0x1fc2c23ce98045, 0x1fc2e8a2d2c6b5, 0x1fc30d654122ef, 0x1fc33087de9c0f,
  0x1fc3520e0b7ec9, 0x1fc371fadf66f8, 0x1fc390512a2887, 0x1fc3ad137497fa,
  0x1fc3c844013349, 0x1fc3e1e4ccab40, 0x1fc3f9f78e4da8, 0x1fc4107db85061,
  0x1fc4257877fd69, 0x1fc438e8b5bfc7, 0x1fc44acf15112a, 0x1fc45b2bf447e9,
  0x1fc469ff6c4505, 0x1fc477495001b3, 0x1fc483092bfbba, 0x1fc48d3e457ff7,
  0x1fc495e799d21b, 0x1fc49d03dd30b2, 0x1fc4a29179b434, 0x1fc4a68e8e07fc,
  0x1fc4a8f8ebfb8d, 0x1fc4a9ce16eaa0, 0x1fc4a90b41fa35, 0x1fc4a6ad4e28a1,
  0x1fc4a2b0c82e76, 0x1fc49d11e62de3, 0x1fc495cc852df4, 0x1fc48cdc265ec1,
  0x1fc4823bec237a, 0x1fc475e696dee7, 0x1fc467d6817e83, 0x1fc458059dc038,
  0x1fc4466d702e22, 0x1fc433070bcb9a, 0x1fc41dcb0d6e0e, 0x1fc406b196bbf7,
  0x1fc3edb248cb62, 0x1fc3d2c43e593d, 0x1fc3b5de0591b5, 0x1fc396f599614b,
  0x1fc376005a4592, 0x1fc352f3069372, 0x1fc32dc1b2281b, 0x1fc3065fbd7888,
  0x1fc2dcbfcbf264, 0x1fc2b0d3b99f9e, 0x1fc2828c8ffcf0, 0x1fc251da79f164,
  0x1fc21eacb6d39e, 0x1fc1e8f18c6757, 0x1fc1b09637bb3d, 0x1fc17586dccd11,
  0x1fc137ae74d6b8, 0x1fc0f6f6bb2416, 0x1fc0b348184da4, 0x1fc06c898baff1,
  0x1fc022a092f365, 0x1fbfd5710f72b8, 0x1fbf84dd294890, 0x1fbf30c52fc60d,
  0x1fbed907770cc6, 0x1fbe7d80327ddc, 0x1fbe1e094ba615, 0x1fbdba7a354408,
  0x1fbd52a7b9f826, 0x1fbce663c6201b, 0x1fbc757d2c4de5, 0x1fbbffbf63b7aa,
  0x1fbb84f23fe6a2, 0x1fbb04d9a0d18e, 0x1fba7f351a70ad, 0x1fb9f3bf92b61a,
  0x1fb9622ed4abfc, 0x1fb8ca33174a18, 0x1fb82b76765b54, 0x1fb7859c5b895d,
  0x1fb6d840d55594, 0x1fb622f7d96943, 0x1fb5654c6f37e2, 0x1fb49ebfbf69d3,
  0x1fb3cec803e747, 0x1fb2f4cf539c40, 0x1fb21032442854, 0x1fb1203e5a9605,
  0x1fb0243042e1c3, 0x1faf1b31c479a7, 0x1fae045767e106, 0x1facde9dbf2d73,
  0x1faba8e640060b, 0x1faa61f399ff29, 0x1fa908656f66a2, 0x1fa79ab3508d3d,
  0x1fa61726d1f215, 0x1fa47bd48bea00, 0x1fa2c693c5c095, 0x1fa0f4f47df316,
  0x1f9f04336bbe0b, 0x1f9cf12b79f9bd, 0x1f9ab84415abc5, 0x1f98555b782fb9,
  0x1f95c3abd03f7a, 0x1f92fda9cef1f3, 0x1f8ffcda9ae41d, 0x1f8cb99e7385f8,
  0x1f892aec479608, 0x1f8545f904db90, 0x1f80fdc336039b, 0x1f7c427839e926,
  0x1f7700a3582ace, 0x1f71200f1a241d, 0x1f6a8234b7352c, 0x1f630000a8e267,
  0x1f5a66904fe3c6, 0x1f50724ece1173, 0x1f44c7665c6fdb, 0x1f36e5a38a59a4,
  0x1f26143450340b, 0x1f113e047b0414, 0x1ef6aefa57cbe7, 0x1ed38ca188151e,
  0x1ea2a61e122db1, 0x1e5961c78b267d, 0x1dddf62bac0bb1, 0x1cdb4dd9e4e8c0]

/-- Decimal digit strings of the 256 `float64` literals of the `we` table
of `math_exp.go`, as natural numbers. -/
def weDigits : List Nat := [
  9655740063209187, 7089014243955202, 11639412496691068, 15243915123532025,
  18332848857237325, 2108965109464476, 2361128077843129, 2595595772310885,
  2816173554197743, 3025504130321374, 32255082548363667, 3417632340185019,
  3602996978734446, 37824907768696417, 39568321980975465, 41266117781759396,
  4292321808442518, 44543777432823646, 4613133981483179, 4768895725264629,
  49219280437279567, 5072462904503141, 5220704702792667, 5366834661718187,
  5511014372835089, 5653388673239661, 579408800485276, 5933230365208937,
  6070922932847173, 6207263431163186, 6342341280303069, 6476238575956133,
  6609030925769398, 6740788167872715, 6871574991183805, 7001451473403922,
  7130473549660636, 7258693422414641, 7386159921381785, 751291882072372,
  7639013119550817, 7764483290797841, 7889367502729783, 8013701816675448,
  8137520364041755, 8260855505210031, 8383737972539132, 8506196999385315,
  8628260436784104, 8749954859216174, 8871305660690245, 8992337142215348,
  9113072591597902, 9233534356381781, 935374391064912, 9473721916312942,
  9593488279457989, 9713062202221511, 9832462230649502, 9951706298915062,
  1007081177024294, 10189795474846932, 10308673745154211, 10427462448561878,
  10546177017945757, 10664832480119141, 10783443482419476, 10902024317583496,
  11020588947055772, 11139151022861965, 11257723908165665, 11376320696616837,
  11494954230590083, 11613637118402173, 11732381750590448, 11851200315326687,
  11970104813034644, 12089107070273848, 12208218752947052, 12327451378884145,
  1244681632985112, 1256632486302898, 12685988122003973, 12805817147307491,
  1292582288654119, 13046016204120286, 13166407890665723, 1328700867207381,
  13407829218289992, 13528880151811752, 13650172055943978, 1377171548282881,
  13893520961270637, 14015599004375713, 1413796011702485, 14260614803196652,
  14383573573157902, 14506846950536877, 14630445479294757, 14754379730609514,
  14878660309686256, 15003297862507367, 15128303082535392, 15253686717381255,
  15379459575449967, 15505632532575771, 15632216538658375, 15759222624311761,
  15886661907536842, 16014545600429167, 16142885015932787, 16271691574651303,
  16400976811727177, 16530752383800364, 16661030076057416, 16791821809382284,
  1692313964762022, 17054995804966296, 17187402653490314, 1732037273081008,
  17453918747925335, 1758805359722491, 1772279036068006, 17858142318237321,
  17994122956424635, 18130745977185013, 1826802530695252, 18405975105985876,
  18544609777975695, 18683943979941927, 18823992632438918, 18964770930086165,
  1910629435244376, 19248578675252436, 19391639982058992, 1953549467624909,
  19680159493510374, 1982565151475019, 1997198817949342, 20119187299787347,
  20267267074641983, 20416246105035888, 20566143409519179, 2071697844044737,
  20868771100881597, 21021541762192925, 21175311282410757, 21330101025357788,
  2148593288061663, 21642829284376045, 21800813241207835, 21959908346828702,
  22120138811904954, 222815294869618, 22444105888463076, 22607894226131728,
  227729214315862, 22939215188373104, 2310680396348213, 2327571704043534,
  23445984554049574, 23617637526977735, 2379070790814276, 2396522861318623,
  24141233567062923, 2431875774892255, 24497837239430697, 2467850927069288,
  2486081227895851, 2504478596029556, 2523047132944216, 25417910782058117,
  2560714816061771, 2579822882420531, 25991199722497464, 2618610947423924,
  26383008450549423, 2658194886341845, 26782984859795257, 26986172621694894,
  2719157047279819, 27399238992058153, 2760924113487617, 2782164236246436,
  28036510780069835, 2825391728480253, 2847393572388174, 28696643064198177,
  28922119574179956, 29150449019052937, 29381718870700286, 29616020533454657,
  29853449587300453, 3009410605012618, 3033809466085003, 30585525185448604,
  308365127481531, 31091178190342663, 31349648459966636, 3161205703467106,
  31878544382197136, 3214925846206798, 3242435527309452, 3270399945182241,
  32988364927722836, 3327763564171672, 33572006335532446, 3387168342045505,
  3417688593525637, 34487846604534244, 34804813010374423, 35128048892229794,
  3545783559224792, 35794473666042765, 36138284682190606, 36489613237645425,
  3684882922095621, 37216330360802073, 3759254510416256, 37977935876688744,
  38373002787892137, 38778287856078953, 3919437984311429, 3962191980786775,
  40061607510565417, 4051420882956573, 40980564389030625, 41461599642909046,
  4195833672073399, 4247190841824385, 43003574816674707, 4355474314693952,
  44126991690360704, 4472209874259932, 4534207798565834, 4598922204905932,
  4666615664711476, 4737590853262492, 4812199172829238, 489085182739221,
  497403423619194, 506232507214416, 5156421828878083, 5257175802022275,
  5365640977112021, 5483144034258703, 5611387454675159, 5752606481503331,
  5909817641652101, 6087231416180907, 6290979034877556, 653049205356404,
  6821393079028929, 7192444966089362, 7706095350032097, 8545517038584027]

/-- Decimal exponents of the 256 `float64` literals of the `we` table. -/
def weExp10 : List Nat := [
  31, 33, 33, 33, 33, 32, 32, 32, 32, 32, 33, 32,
  32, 33, 33, 33, 32, 33, 32, 32, 33, 32, 32, 32,
  32, 32, 31, 32, 32, 32, 32, 32, 32, 32, 32, 32,
  32, 32, 32, 31, 32, 32, 32, 32, 32, 32, 32, 32,
  32, 32, 32, 32, 32, 32, 31, 32, 32, 32, 32, 32,
  31, 32, 32, 32, 32, 32, 32, 32, 32, 32, 32, 32,
  32, 32, 32, 32, 32, 32, 32, 32, 31, 31, 32, 32,
  31, 32, 32, 31, 32, 32, 32, 31, 32, 32, 31, 32,
  32, 32, 32, 32, 32, 32, 32, 32, 32, 32, 32, 32,
  32, 32, 32, 32, 32, 32, 32, 32, 31, 32, 32, 31,
  32, 31, 31, 32, 32, 32, 31, 32, 32, 32, 32, 32,
  31, 32, 32, 31, 32, 31, 31, 32, 32, 32, 32, 31,
  32, 32, 32, 32, 31, 32, 32, 32, 32, 30, 32, 32,
  30, 32, 31, 31, 32, 32, 31, 31, 32, 31, 32, 31,
  31, 31, 31, 32, 31, 31, 32, 31, 32, 31, 32, 32,
  31, 32, 31, 31, 32, 31, 31, 32, 32, 32, 32, 32,
  32, 31, 31, 32, 30, 32, 32, 31, 32, 31, 31, 31,
  32, 31, 32, 31, 31, 32, 32, 32, 31, 32, 32, 32,
  31, 32, 31, 32, 32, 32, 31, 31, 32, 31, 32, 32,
  31, 31, 32, 31, 32, 31, 31, 31, 31, 31, 31, 30,
  30, 30, 31, 31, 31, 31, 31, 31, 31, 31, 31, 30,
  31, 31, 31, 31]

/-- Decimal digit strings of the 256 `float64` literals of the `fe` table
of `math_exp.go`, as natural numbers. -/
def feDigits : List Nat := [
  1, 9381436808621765, 9004699299257477, 8717043323812047,
  8477855006239905, 8269932966430511, 808421651523009, 7915276369724963,
  7759568520401162, 7614633888498968, 7478686219851957, 735038092431424,
  7228676595935725, 7112747608050765, 7001926550827886, 6895664961170784,
  6793505722647658, 6695063167319252, 6600008410790001, 6508058334145714,
  6418967164272664, 6332519942143664, 6248527387036662, 6166821809152079,
  6087253820796223, 6009689663652326, 5934009016917338, 5860103184772684,
  5787873586028454, 5717230486648262, 5648091929124006, 5580382822625879,
  5514034165406417, 5448982376724401, 5385168720028622, 5322538802630437,
  5261042139836201, 5200631773682339, 5141263938147489, 5082897764106432,
  5025495018413481, 4969019872415499, 49134386959403287, 48587198734188525,
  48048336393045454, 4751751930373777, 4699448252839603, 4647897562504265,
  459707615642138, 45469615747461584, 44975325116275533, 44487687341454885,
  4400651008423542, 4353161032156369, 43062813728845917, 4259995411430347,
  4214287289976169, 41691418643300326, 4124544659971615, 40804818315203273,
  4036940125305306, 3993906844752314, 39513698183329043, 3909317369847974,
  38677382908413793, 38266218149601006, 37859575940958107, 37457356761590244,
  3705946484351463, 36665807978151443, 3627629733548181, 35890847294875006,
  35509375286678774, 3513180164374836, 34758049462163726, 3438804447045027,
  34021714906678024, 3365899140286778, 3329980687618092, 32944096426413655,
  32591797239355635, 3224284849560893, 31897191284495735, 315547685227129,
  3121552487741797, 30879406693456024, 3054636192445903, 3021634006756935,
  2988929210155818, 29565170428126125, 29243928816189263, 28925522348967775,
  2860990737370769, 2829704145387808, 2798688332369729, 2767939284485174,
  27374530965280297, 27072259679906, 26772541993204485, 26475341883506226,
  26180624268936303, 2588835497490163, 25598500703041543, 2531102900156295,
  25025908236886235, 24743107566532765, 24462596913189213, 24184346939887724,
  23908329026244915, 23634515245705962, 23362878343743335, 23093391716962744,
  22826029393071676, 22560766011668415, 22297576805812028, 22036437584335958,
  21777324714870058, 2152021510753787, 21265086199297834, 2101191593889883,
  20760682772422212, 20511365629383782, 2026394390937091, 20018397469191135,
  19774706610509893, 19532852067956327, 19292814997677138, 19054576966319545,
  18818119940425432, 18583426276219714, 1835047870977675, 18119260347549634,
  17889754657247836, 17661945459049494, 17435816917135352, 1721135353153201,
  16988540130252766, 1676736186172502, 165478041874936, 16329852875190182,
  16113493991759203, 1589871389693142, 15685499236936523, 15473836938446808,
  15263714202744288, 15055118500103992, 14848037564386682, 14642459387834497,
  1443837221606348, 14235764543247223, 1403462510748625, 1383494288635803,
  13636707092642894, 1343990717022137, 13244532790138763, 13050573846833088,
  1285802045452283, 12666862943751078, 12477091858083104, 12288697950954522,
  1210167218266749, 11916005717532775, 11731689921155564, 1154871635786336,
  11367076788274438, 11186763167005638, 11007767640518545, 10830082545103385,
  10653700405000172, 10478613930657024, 1030481601712578, 10132299742595369,
  9961058367063715, 9791085331149221, 9622374255043283, 9454918937605587,
  9288713355604357, 9123751663104017, 8960028191003284, 8797537446727019,
  8636274114075689, 847623305323681, 8317409300963235, 8159798070923742,
  800339475423199, 7848194920160644, 7694194317048052, 754138887340584,
  7389774699236475, 7239348087570872, 7090105516237181, 6942043649872875,
  6795159342193662, 6649449638533979, 6504911778675376, 6361543199980735,
  6219341540854101, 6078304644547963, 5938430563342025, 5799717563120064,
  5662164128374284, 5525768967669701, 5390531019604605, 52564494593071664,
  51235237055126254, 4991753428270636, 4861138557337948, 4731679291318155,
  4603376107617516, 4476229773294327, 43502413568888176, 4225412241331624,
  4101744138041482, 3979239102337412, 3857899550307485, 3737728277295936,
  3618728478193143, 3500903769739742, 33842582150874344, 3268796350895954,
  3154523217289361, 30414443910466608, 29295660224637397, 28188948763978632,
  270943837809558, 2601204664513422, 24942026419731787, 23884420511558174,
  2283933540638524, 21806887504283584, 20787204072578117, 1978042433800974,
  18786700744696024, 17806200410911355, 1683910682603994, 15885621839973156,
  14945968011691148, 14020391403181943, 13109164931254991, 12212592426255378,
  113310135978346, 10464810181029982, 9614413642502213, 8780314985808977,
  7963077438017043, 7163353183634991, 6381905937319183, 5619642207205489,
  48776559835424, 41572951208338005, 3460264777836907, 27887987935740783,
  2145967743718907, 15362997803015728, 9672692823271743, 4541343538414966]

/-- Decimal exponents of the 256 `float64` literals of the `fe` table. -/
def feExp10 : List Nat := [
  0, 16, 16, 16, 16, 16, 15, 16, 16, 16, 16, 15,
  16, 16, 16, 16, 16, 16, 16, 16, 16, 16, 16, 16,
  16, 16, 16, 16, 16, 16, 16, 16, 16, 16, 16, 16,
  16, 16, 16, 16, 16, 16, 17, 17, 17, 16, 16, 16,
  15, 17, 17, 17, 16, 16, 17, 16, 16, 17, 16, 17,
  16, 16, 17, 16, 17, 17, 17, 17, 16, 17, 16, 17,
  17, 16, 17, 16, 17, 16, 16, 17, 17, 16, 17, 15,
  16, 17, 16, 16, 16, 17, 17, 17, 16, 16, 16, 16,
  17, 14, 17, 17, 17, 16, 17, 16, 17, 17, 17, 17,
  17, 17, 17, 17, 17, 17, 17, 17, 17, 16, 17, 16,
  17, 17, 16, 17, 17, 17, 17, 17, 17, 17, 16, 17,
  17, 17, 17, 16, 17, 16, 15, 17, 17, 16, 17, 17,
  17, 17, 17, 17, 16, 17, 16, 16, 17, 16, 17, 17,
  16, 17, 17, 17, 16, 17, 17, 16, 17, 17, 17, 17,
  17, 17, 16, 17, 17, 17, 17, 17, 17, 17, 17, 17,
  17, 16, 17, 17, 16, 17, 17, 16, 17, 17, 17, 17,
  17, 17, 17, 17, 17, 17, 17, 17, 17, 17, 17, 18,
  18, 17, 17, 17, 17, 17, 18, 17, 17, 17, 17, 17,
  17, 17, 18, 17, 17, 18, 18, 18, 16, 17, 18, 18,
  17, 18, 18, 17, 18, 18, 17, 18, 18, 18, 18, 18,
  16, 18, 18, 18, 18, 18, 18, 18, 16, 19, 18, 19,
  18, 19, 19, 19]

/-- The exact rational value of the `i`-th literal of the `we` table. -/
def weQ (i : Nat) : Rat := mkRat (weDigits.getD i 0) (10 ^ weExp10.getD i 0)

/-- The exact rational value of the `i`-th literal of the `fe` table. -/
def feQ (i : Nat) : Rat := mkRat (feDigits.getD i 0) (10 ^ feExp10.getD i 0)

/-- The constant `re = 7.69711747013104972` of `math_exp.go`, as the exact
rational value of its decimal literal. -/
def reQ : Rat := mkRat 769711747013104972 (10 ^ 17)

/-- Table lookup `ke[i]`. -/
def keN (i : Nat) : Nat := keList.getD i 0

/-- Table lookup `we[i]`, cast to the reals. -/
def weR (i : Nat) : ℝ := (weQ i : ℝ)

/-- Table lookup `fe[i]`, cast to the reals. -/
def feR (i : Nat) : ℝ := (feQ i : ℝ)

/-- The tail constant `re`, cast to the reals. -/
def reVal : ℝ := (reQ : ℝ)

/-! ## The word split of `ExpFloat64` -/

/-- The split performed on each raw word `v` at the top of the rejection
loop of `ExpFloat64`: `j := v >> 11` and `i := v & 0xFF` (source lines
37–38 of `math_exp.go`). -/
def expSplit (v : Nat) : Nat × Nat := (v >>> 11, v &&& 255)

/-- The raw word drawn by `r.Uint64()` on iteration `wp`, reduced to 64 bits. -/
def drawWord (words : Nat → Nat) (wp : Nat) : Nat := words wp % 2 ^ 64

/-- The layer-relative magnitude `j` of the word drawn at word-cursor `wp`. -/
def jOf (words : Nat → Nat) (wp : Nat) : Nat := (expSplit (drawWord words wp)).1

/-- The layer index `i` of the word drawn at word-cursor `wp`. -/
def iOf (words : Nat → Nat) (wp : Nat) : Nat := (expSplit (drawWord words wp)).2

/-- The candidate value `x = float64(j) * we[i]` of the iteration at
word-cursor `wp`, in exact real arithmetic. -/
def candOf (words : Nat → Nat) (wp : Nat) : ℝ :=
  (jOf words wp : ℝ) * weR (iOf words wp)

/-- The acceptance test of the slow path of `ExpFloat64`
(`fe[i]+r.Float64()*(fe[i-1]-fe[i]) < math.Exp(-x)`, source line 46),
where `u` is the uniform value drawn by `r.Float64()`. -/
def slowCond (words : Nat → Nat) (wp : Nat) (u : ℝ) : Prop :=
  feR (iOf words wp) + u * (feR (iOf words wp - 1) - feR (iOf words wp)) <
    Real.exp (-(candOf words wp))

/-! ## Big-step semantics of the `ExpFloat64` rejection loop

`ExpEval words unifs wp up x wp₂ up₂` states that the `for` loop of
`ExpFloat64`, entered with the raw-word stream positioned at `wp` and the
uniform stream positioned at `up`, terminates with result `x`, leaving
the raw-word cursor at `wp₂` and the uniform cursor at `up₂`.  The four
constructors are the four exits of one loop iteration in source order:
the fast path, the tail path (`i == 0`), the slow-path acceptance, and
the slow-path rejection that restarts the loop on fresh input. -/
inductive ExpEval (words : Nat → Nat) (unifs : Nat → ℝ) :
    Nat → Nat → ℝ → Nat → Nat → Prop where
  | fast (wp up : Nat)
      (h : jOf words wp < keN (iOf words wp)) :
      ExpEval words unifs wp up (candOf words wp) (wp + 1) up
  | tail (wp up : Nat)
      (h1 : ¬ jOf words wp < keN (iOf words wp))
      (h2 : iOf words wp = 0) :
      ExpEval words unifs wp up (reVal - Real.log (unifs up)) (wp + 1) (up + 1)
  | slow (wp up : Nat)
      (h1 : ¬ jOf words wp < keN (iOf words wp))
      (h2 : iOf words wp ≠ 0)
      (h3 : slowCond words wp (unifs up)) :
      ExpEval words unifs wp up (candOf words wp) (wp + 1) (up + 1)
  | reject (wp up : Nat) (x : ℝ) (wp₂ up₂ : Nat)
      (h1 : ¬ jOf words wp < keN (iOf words wp))
      (h2 : iOf words wp ≠ 0)
      (h3 : ¬ slowCond words wp (unifs up))
      (h4 : ExpEval words unifs (wp + 1) (up + 1) x wp₂ up₂) :
      ExpEval words unifs wp up x wp₂ up₂

/-- The all-zero raw-word stream, used as a concrete input. -/
def zeroWords : Nat → Nat := fun _ => 0

/-- The all-zero uniform stream, used as a concrete input. -/
def zeroUnifs : Nat → ℝ := fun _ => 0


/-! ## Models of the core engine and its derived operations

The implementations of `Read`, the bounded samplers and `Shuffle` are not
part of the verified source file; they are modelled from the repository
specification.  The engine is abstract: its state is the stream of raw
words it will produce together with a cursor. -/

/-- Modelled from the spec: the Core Engine (spec 4.1), whose concrete
state-transition function is not part of the verified source; its state
is the stream of raw 64-bit words it will produce plus a cursor. -/
structure Rng where
  words : Nat → Nat
  pos : Nat

/-- Modelled from the spec: `next_u64()` (spec 4.1) — drawing one raw
64-bit word advances the engine by one position. -/
def next (g : Rng) : Nat × Rng := (g.words g.pos % 2 ^ 64, ⟨g.words, g.pos + 1⟩)

/-- The error kinds of the specification (spec 7). -/
inductive RandErr where
  | domainError
  | invalidArgument
  | formatError

/-- Modelled from the spec: the rejection phase of the Bounded Sampler
(spec 4.3) at word width `w` — draw a full-width value, reject and redraw
while it falls at or above the largest multiple of `n` that fits in `w`
bits, then reduce modulo `n`.  `fuel` bounds the loop of the model; on
exhaustion the last draw is reduced directly. -/
def rejectLoop (w : Nat) : Nat → Rng → Nat → Except RandErr Nat × Rng
  | 0, g, n =>
    let r := next g
    (Except.ok (r.1 % 2 ^ w % n), r.2)
  | f + 1, g, n =>
    let r := next g
    let v := r.1 % 2 ^ w
    if v < 2 ^ w - 2 ^ w % n then (Except.ok (v % n), r.2)
    else rejectLoop w f r.2 n

/-- Modelled from the spec: `uniform_below(n, width)` (spec 4.3), one
definition for every width 32/63/64, signed or unsigned: `n = 0` fails
with a `DomainError` before the engine is touched; a power of two uses a
single masked draw; otherwise rejection sampling against the largest
multiple of `n` fitting the width. -/
def uniformBelow (w : Nat) (fuel : Nat) (g : Rng) (n : Nat) :
    Except RandErr Nat × Rng :=
  if n = 0 then (Except.error RandErr.domainError, g)
  else if n &&& (n - 1) = 0 then
    let r := next g
    (Except.ok (r.1 % 2 ^ w &&& (n - 1)), r.2)
  else
    rejectLoop w fuel g n

/-- Modelled from the spec: the Fisher–Yates loop of `shuffle(n, swap)`
(spec 4.6) with current index `i`, iterating down to `1` and recording
each `swap(i, j)` invocation, `j` drawn uniformly from `[0, i]` by the
Bounded Sampler. -/
def fyLoop (fuel : Nat) : Nat → Rng → List (Nat × Nat) × Rng
  | 0, g => ([], g)
  | i + 1, g =>
    let r := uniformBelow 64 fuel g (i + 2)
    match r.1 with
    | Except.error _ => ([], r.2)
    | Except.ok j =>
      let rest := fyLoop fuel i r.2
      ((i + 1, j) :: rest.1, rest.2)

/-- Modelled from the spec: `shuffle(n, swap)` (spec 4.6) runs the
Fisher–Yates loop from the last index `n - 1` down to `1`; the returned
list is the swap-invocation trace. -/
def shuffleTrace (fuel : Nat) (g : Rng) (n : Nat) : List (Nat × Nat) × Rng :=
  fyLoop fuel (n - 1) g

/-- The engine whose word stream is constantly zero, a concrete input. -/
def zeroRng : Rng := ⟨fun _ => 0, 0⟩

/-- Modelled from the spec: the eight bytes of one raw word in
little-endian stream order (spec 4.7 fixes a documented order). -/
def wordBytes (w : Nat) : List Nat :=
  [w % 256, w / 2 ^ 8 % 256, w / 2 ^ 16 % 256, w / 2 ^ 24 % 256,
   w / 2 ^ 32 % 256, w / 2 ^ 40 % 256, w / 2 ^ 48 % 256, w / 2 ^ 56 % 256]

/-- Modelled from the spec: the Byte Stream Adapter state (spec 4.7) —
the word stream and cursor of the engine plus the leftover bytes of the
last drawn word. -/
structure ByteState where
  words : Nat → Nat
  pos : Nat
  buf : List Nat

/-- Modelled from the spec: the whole-word phase of `read` (spec 4.7) —
with the leftover buffer empty, draw whole raw words, store all consumed
bytes in stream order, and keep the unused tail bytes of the last word as
the new leftover buffer.  The first argument is recursion fuel;
`readBytes` instantiates it sufficiently. -/
def readWordsF : Nat → Nat → (Nat → Nat) → Nat → List Nat × ByteState
  | _, 0, words, pos => ([], ⟨words, pos, []⟩)
  | 0, _ + 1, words, pos => ([], ⟨words, pos, []⟩)
  | f + 1, m + 1, words, pos =>
    let bs := wordBytes (words pos % 2 ^ 64)
    if m + 1 ≤ 8 then
      (bs.take (m + 1), ⟨words, pos + 1, bs.drop (m + 1)⟩)
    else
      let r := readWordsF f (m + 1 - 8) words (pos + 1)
      (bs ++ r.1, r.2)

/-- Modelled from the spec: `read(buffer)` (spec 4.7) fills the buffer by
draining the leftover byte buffer first and then drawing whole words;
the result is the bytes read and the new state. -/
def readBytes (n : Nat) (s : ByteState) : List Nat × ByteState :=
  if n ≤ s.buf.length then
    (s.buf.take n, ⟨s.words, s.pos, s.buf.drop n⟩)
  else
    let r := readWordsF (n - s.buf.length) (n - s.buf.length) s.words s.pos
    (s.buf ++ r.1, r.2)

/-- Reading `n` bytes one byte at a time: `n` successive calls of
`readBytes` with a length-1 buffer, concatenating the results. -/
def readByOne : Nat → ByteState → List Nat × ByteState
  | 0, s => ([], s)
  | n + 1, s =>
    let r1 := readBytes 1 s
    let r := readByOne n r1.2
    (r1.1 ++ r.1, r.2)

/-! ## Structure of one loop iteration -/

/-- Inversion principle for `ExpEval`: a terminating run of the loop is
exactly one of the four source-ordered exits, the last of which restarts
the loop on the next word and the next uniform. -/
lemma expEval_iff (words : Nat → Nat) (unifs : Nat → ℝ) (wp up : Nat)
    (x : ℝ) (wp₂ up₂ : Nat) :
    ExpEval words unifs wp up x wp₂ up₂ ↔
      (jOf words wp < keN (iOf words wp) ∧
        x = candOf words wp ∧ wp₂ = wp + 1 ∧ up₂ = up) ∨
      (¬ jOf words wp < keN (iOf words wp) ∧ iOf words wp = 0 ∧
        x = reVal - Real.log (unifs up) ∧ wp₂ = wp + 1 ∧ up₂ = up + 1) ∨
      (¬ jOf words wp < keN (iOf words wp) ∧ iOf words wp ≠ 0 ∧
        slowCond words wp (unifs up) ∧
        x = candOf words wp ∧ wp₂ = wp + 1 ∧ up₂ = up + 1) ∨
      (¬ jOf words wp < keN (iOf words wp) ∧ iOf words wp ≠ 0 ∧
        ¬ slowCond words wp (unifs up) ∧
        ExpEval words unifs (wp + 1) (up + 1) x wp₂ up₂) := by
  constructor
  · intro h
    cases h with
    | fast wp up h => exact Or.inl ⟨h, rfl, rfl, rfl⟩
    | tail wp up h1 h2 => exact Or.inr (Or.inl ⟨h1, h2, rfl, rfl, rfl⟩)
    | slow wp up h1 h2 h3 =>
        exact Or.inr (Or.inr (Or.inl ⟨h1, h2, h3, rfl, rfl, rfl⟩))
    | reject wp up x wp₂ up₂ h1 h2 h3 h4 =>
        exact Or.inr (Or.inr (Or.inr ⟨h1, h2, h3, h4⟩))
  · rintro (⟨h, hx, hw, hu⟩ | ⟨h1, h2, hx, hw, hu⟩ |
      ⟨h1, h2, h3, hx, hw, hu⟩ | ⟨h1, h2, h3, h4⟩)
    · rw [hx, hw, hu]; exact ExpEval.fast wp up h
    · rw [hx, hw, hu]; exact ExpEval.tail wp up h1 h2
    · rw [hx, hw, hu]; exact ExpEval.slow wp up h1 h2 h3
    · exact ExpEval.reject wp up x wp₂ up₂ h1 h2 h3 h4

/-! ## Claim theorems about `ExpFloat64` -/

/-- Claim C3: each iteration of the `ExpFloat64` rejection loop follows
exactly the specified ziggurat state machine.  The candidate is
`x = j * we[i]`; if `j < ke[i]` the candidate is returned at once; else if
`i = 0` the result is the tail value `re - ln(uniform())`; otherwise `x`
is returned iff `fe[i] + uniform() * (fe[i-1] - fe[i]) < exp(-x)`, and on
failure the loop restarts with a fresh raw word (and a fresh uniform). -/
theorem expFloat64_follows_state_machine (words : Nat → Nat) (unifs : Nat → ℝ)
    (wp up : Nat) (x : ℝ) (wp₂ up₂ : Nat) :
    ExpEval words unifs wp up x wp₂ up₂ ↔
      (jOf words wp < keN (iOf words wp) ∧
        x = candOf words wp ∧ wp₂ = wp + 1 ∧ up₂ = up) ∨
      (¬ jOf words wp < keN (iOf words wp) ∧ iOf words wp = 0 ∧
        x = reVal - Real.log (unifs up) ∧ wp₂ = wp + 1 ∧ up₂ = up + 1) ∨
      (¬ jOf words wp < keN (iOf words wp) ∧ iOf words wp ≠ 0 ∧
        slowCond words wp (unifs up) ∧
        x = candOf words wp ∧ wp₂ = wp + 1 ∧ up₂ = up + 1) ∨
      (¬ jOf words wp < keN (iOf words wp) ∧ iOf words wp ≠ 0 ∧
        ¬ slowCond words wp (unifs up) ∧
        ExpEval words unifs (wp + 1) (up + 1) x wp₂ up₂) :=
  expEval_iff words unifs wp up x wp₂ up₂

/-- Claim C10: when the drawn word satisfies the fast-path condition
`j < ke[i]`, the loop returns `j * we[i]` after consuming exactly one raw
word and no uniform value, and this is the only possible outcome from
that position. -/
theorem expFloat64_fast_path (words : Nat → Nat) (unifs : Nat → ℝ)
    (wp up : Nat) (h : jOf words wp < keN (iOf words wp)) :
    ExpEval words unifs wp up (candOf words wp) (wp + 1) up ∧
    ∀ x wp₂ up₂, ExpEval words unifs wp up x wp₂ up₂ →
      x = candOf words wp ∧ wp₂ = wp + 1 ∧ up₂ = up := by
  refine ⟨ExpEval.fast wp up h, ?_⟩
  intro x wp₂ up₂ hx
  cases hx with
  | fast wp up h => exact ⟨rfl, rfl, rfl⟩
  | tail wp up h1 h2 => exact absurd h h1
  | slow wp up h1 h2 h3 => exact absurd h h1
  | reject wp up x wp₂ up₂ h1 h2 h3 h4 => exact absurd h h1

/-- Witness for `expFloat64_fast_path`: the all-zero word stream takes the
fast path at once (`j = 0 < ke[0]`) and consumes one word and no uniform. -/
theorem expFloat64_fast_path_app :
    jOf zeroWords 0 < keN (iOf zeroWords 0) ∧
      ExpEval zeroWords zeroUnifs 0 0 (candOf zeroWords 0) 1 0 :=
  ⟨by decide, (expFloat64_fast_path zeroWords zeroUnifs 0 0 (by decide)).1⟩

/-- Claim C1 fails on the code: when the raw word `v = 0` is drawn, the
fast path fires (`j = 0 < ke[0]`) and `ExpFloat64` returns
`x = 0 * we[0] = 0`, although its own documentation promises the open
range `(0, +MaxFloat64]`. -/
theorem expFloat64_returns_zero : ExpEval zeroWords zeroUnifs 0 0 0 1 0 := by
  have h : ExpEval zeroWords zeroUnifs 0 0 (candOf zeroWords 0) (0 + 1) 0 :=
    ExpEval.fast 0 0 (by decide)
  have hj : jOf zeroWords 0 = 0 := by decide
  have hc : candOf zeroWords 0 = 0 := by simp [candOf, hj]
  rw [hc] at h
  exact h

/-! ## Claim theorems about the word split -/

/-- Claim C2 fails as stated: for the raw word `v = 2048` the low 8 bits
do select `i = 0`, but the magnitude is `j = v >> 11 = 1`, not the value
`v >> 8 = 8` formed by all 56 bits that remain above the low 8. -/
theorem expSplit_not_all_high_bits :
    ¬ ((expSplit 2048).2 = 2048 % 2 ^ 8 ∧ (expSplit 2048).1 = 2048 / 2 ^ 8) := by
  decide

/-- Claim C2, amended: the low 8 bits of the drawn word select the layer
index `i`, and the top 53 bits `j = v >> 11` form the layer-relative
magnitude (bits 8–10 of the word contribute to neither). -/
theorem expSplit_low8_top53 (v : Nat) (h : v < 2 ^ 64) :
    (expSplit v).2 = v % 2 ^ 8 ∧ (expSplit v).1 = v / 2 ^ 11 ∧
      (expSplit v).1 < 2 ^ 53 := by
  refine ⟨Nat.and_pow_two_sub_one_eq_mod v 8, Nat.shiftRight_eq_div_pow v 11, ?_⟩
  show v >>> 11 < 2 ^ 53
  rw [Nat.shiftRight_eq_div_pow]
  exact Nat.div_lt_of_lt_mul (by norm_num at h ⊢; omega)

/-- Witness for `expSplit_low8_top53` at `v = 2048`. -/
theorem expSplit_low8_top53_app :
    2048 < 2 ^ 64 ∧ ((expSplit 2048).2 = 2048 % 2 ^ 8 ∧
      (expSplit 2048).1 = 2048 / 2 ^ 11 ∧ (expSplit 2048).1 < 2 ^ 53) :=
  ⟨by decide, expSplit_low8_top53 2048 (by decide)⟩

/-! ## Claim theorem about the `fe` table -/

set_option maxRecDepth 10000 in
set_option maxHeartbeats 2000000 in
/-- Claim C9: the exponential density table `fe` is strictly decreasing,
with `fe[0] = 1`, so the interpolation coefficient `fe[i-1] - fe[i]` of
the slow-path test is strictly positive for every layer `i` in `1..255`. -/
theorem feTable_strictly_decreasing :
    feQ 0 = 1 ∧ ∀ i, i < 256 → 0 < i →
      feQ i < feQ (i - 1) ∧ 0 < feQ (i - 1) - feQ i := by
  have h : ∀ i, i < 256 → 0 < i → feQ i < feQ (i - 1) := by decide
  refine ⟨by decide, fun i hi hp => ⟨h i hi hp, sub_pos.mpr (h i hi hp)⟩⟩

/-- Witness for `feTable_strictly_decreasing` at `i = 1`. -/
theorem feTable_strictly_decreasing_app :
    (1 : Nat) < 256 ∧ (0 : Nat) < 1 ∧
      (feQ 1 < feQ 0 ∧ 0 < feQ 0 - feQ 1) :=
  ⟨by decide, by decide, feTable_strictly_decreasing.2 1 (by decide) (by decide)⟩

/-! ## The modelled byte stream, bounded sampler and shuffle -/

/-- Requesting zero bytes from the whole-word phase reads nothing. -/
lemma readWordsF_zero (f : Nat) (words : Nat → Nat) (pos : Nat) :
    readWordsF f 0 words pos = ([], ⟨words, pos, []⟩) := by
  cases f <;> rfl

/-- The whole-word phase does not depend on its fuel argument once the
fuel dominates the number of requested bytes. -/
lemma readWordsF_fuel (f₁ : Nat) : ∀ f₂ m words pos, m ≤ 8 * f₁ → m ≤ 8 * f₂ →
    readWordsF f₁ m words pos = readWordsF f₂ m words pos := by
  induction f₁ with
  | zero =>
    intro f₂ m words pos h1 h2
    have hm : m = 0 := by omega
    subst hm
    rw [readWordsF_zero, readWordsF_zero]
  | succ f ih =>
    intro f₂ m words pos h1 h2
    match m, f₂ with
    | 0, f₂ => rw [readWordsF_zero, readWordsF_zero]
    | m + 1, 0 => omega
    | m + 1, f₂ + 1 =>
      by_cases h8 : m + 1 ≤ 8
      · simp only [readWordsF, if_pos h8]
      · simp only [readWordsF, if_neg h8]
        rw [ih f₂ (m + 1 - 8) words (pos + 1) (by omega) (by omega)]

/-- Reading `n + 1` bytes at once is reading one byte and then `n` bytes. -/
lemma readBytes_succ (n : Nat) (s : ByteState) :
    readBytes (n + 1) s =
      ((readBytes 1 s).1 ++ (readBytes n (readBytes 1 s).2).1,
        (readBytes n (readBytes 1 s).2).2) := by
  obtain ⟨words, pos, buf⟩ := s
  cases buf with
  | cons b t =>
    by_cases hA : n ≤ t.length
    · simp [readBytes, Nat.succ_le_succ_iff, hA]
    · have h1 : ¬ n + 1 ≤ t.length + 1 := by omega
      simp [readBytes, hA, h1]
  | nil =>
    have h1 : readBytes 1 ⟨words, pos, []⟩ =
        ((wordBytes (words pos % 2 ^ 64)).take 1,
          ⟨words, pos + 1, (wordBytes (words pos % 2 ^ 64)).drop 1⟩) := by
      simp [readBytes, readWordsF]
    by_cases hB : n ≤ 7
    all_goals
      rw [h1]
      simp only [readBytes, List.length_nil, List.length_drop, Nat.le_zero,
        Nat.add_one_ne_zero, if_neg, if_false, Nat.sub_zero, List.nil_append]
      have hwb : (wordBytes (words pos % 2 ^ 64)).length = 8 := by
        simp [wordBytes]
      simp only [hwb]
    · have h2 : n + 1 ≤ 8 := by omega
      rw [if_pos (show n ≤ 8 - 1 by omega)]
      have hrw : readWordsF (n + 1) (n + 1) words pos =
          ((wordBytes (words pos % 2 ^ 64)).take (n + 1),
            ⟨words, pos + 1, (wordBytes (words pos % 2 ^ 64)).drop (n + 1)⟩) := by
        cases n with
        | zero => simp [readWordsF]
        | succ k => simp only [readWordsF, if_pos h2]
      rw [hrw]
      simp only [Prod.mk.injEq, ByteState.mk.injEq, true_and, and_true]
      constructor
      · rw [Nat.add_comm n 1, List.take_add]
      · rw [List.drop_drop, Nat.add_comm n 1]
    · have h2 : ¬ n + 1 ≤ 8 := by omega
      rw [if_neg (show ¬ n ≤ 8 - 1 by omega)]
      have hfuel : readWordsF (n - (8 - 1)) (n - (8 - 1)) words (pos + 1) =
          readWordsF (n + 1 - 8) (n + 1 - 8) words (pos + 1) := by
        rw [show n - (8 - 1) = n + 1 - 8 from by omega]
      have hrw : readWordsF (n + 1) (n + 1) words pos =
          (wordBytes (words pos % 2 ^ 64) ++
              (readWordsF (n + 1 - 8) (n + 1 - 8) words (pos + 1)).1,
            (readWordsF (n + 1 - 8) (n + 1 - 8) words (pos + 1)).2) := by
        cases n with
        | zero => omega
        | succ k =>
          simp only [readWordsF, if_neg h2]
          rw [readWordsF_fuel (k + 1) (k + 1 + 1 - 8) (k + 1 + 1 - 8) words (pos + 1)
            (by omega) (by omega)]
      rw [hrw, hfuel]
      simp only [Prod.mk.injEq]
      refine ⟨?_, trivial⟩
      rw [← List.append_assoc, List.take_append_drop]

/-- Claim C6: for every byte count `n` and every adapter state (hence
every seed, where a freshly seeded state has an empty leftover buffer),
reading `n` bytes one byte at a time yields exactly the same byte
sequence and the same final state as a single `n`-byte read. -/
theorem read_granularity_invariance (n : Nat) :
    ∀ s, readByOne n s = readBytes n s := by
  induction n with
  | zero =>
    intro s
    simp [readByOne, readBytes]
  | succ n ih =>
    intro s
    rw [readBytes_succ]
    simp only [readByOne]
    rw [ih]

/-- Claim C7: for every sampler width and every engine state, calling
`uniform_below` with bound `n = 0` fails with a `DomainError` and returns
the engine unchanged — no raw word is consumed and no state is mutated,
so the subsequent output sequence is the one of an engine on which the
failing call was never made. -/
theorem uniformBelow_zero_domainError (w fuel : Nat) (g : Rng) :
    uniformBelow w fuel g 0 = (Except.error RandErr.domainError, g) := by
  simp [uniformBelow]

/-- Claim C8: `shuffle(n, swap)` with `n ≤ 1` produces no swap invocation
and leaves the engine untouched — no raw word is consumed. -/
theorem shuffleTrace_noop (fuel : Nat) (g : Rng) (n : Nat) (h : n ≤ 1) :
    shuffleTrace fuel g n = ([], g) := by
  have h0 : n - 1 = 0 := by omega
  rw [shuffleTrace, h0]
  rfl

/-- Witness for `shuffleTrace_noop` at `n = 1` on a concrete engine. -/
theorem shuffleTrace_noop_app :
    (1 : Nat) ≤ 1 ∧ shuffleTrace 1 zeroRng 1 = ([], zeroRng) :=
  ⟨by decide, shuffleTrace_noop 1 zeroRng 1 (by decide)⟩

end GozelleRand
